import Mathlib

/-!
Verification development for the ai-image-analyser backend.

Shallow embedding of the image upload/analysis pipeline:
- `backend/app/services/image_analysis_service.py` (provider client),
- `backend/app/services/analysis_strategies.py` (fallback strategy),
- `backend/app/services/image_service.py` (upload/delete/get orchestration),
- `backend/app/repositories/image_repository.py` (persistence),
- `backend/app/utils/s3_helper.py` (presign).

External effects (boto3 calls, the Clarifai workflow request, the database
session) are modelled as explicit outcome parameters (`Except` values) or as
explicit state (an association list of persisted records); the Python dict
results are modelled as a structure whose `Option` fields distinguish an
absent key from a present one. Confidence scores (Python floats compared
with `>` and sorted) are modelled as rationals.
-/

namespace App

/-- Python truthiness of an optional string: `None` and `""` are falsy. -/
def strTruthy : Option String → Bool
  | none => false
  | some s => !s.isEmpty

/-- Python truthiness of an optional byte payload: `None` and `b""` are falsy.
Bytes are modelled as a list of naturals. -/
def bytesTruthy : Option (List Nat) → Bool
  | none => false
  | some b => !b.isEmpty

/-- A concept entry as built by `_analyze_with_clarifai_workflow`:
`{"name": ..., "value": ..., "model": ...}`. Confidence is a rational. -/
structure Concept where
  name : String
  value : ℚ
  model : String
deriving Repr, DecidableEq

/-- The analyse-result dict. `none` in an `Option` field models an absent key
(or, for `description`, a `None` value — the code only ever reads it with
`.get`/truthiness, which cannot tell the two apart). The purely diagnostic
`workflow_url` and `raw_response` keys of the genuine-path dict are omitted:
no code reads them. -/
structure AnalysisResult where
  description : Option String
  concepts : Option (List Concept)
  error : Option String
  using_fallback : Option Bool
deriving Repr, DecidableEq

/-- `result.get('using_fallback', False)`. -/
def AnalysisResult.fallbackFlag (r : AnalysisResult) : Bool :=
  r.using_fallback.getD false

/-- Descending order on concepts by confidence, as produced by
`sorted(concepts, key=lambda x: x['value'], reverse=True)`. -/
def conceptGE (a b : Concept) : Prop := b.value ≤ a.value

instance : DecidableRel conceptGE :=
  fun a b => inferInstanceAs (Decidable (b.value ≤ a.value))

instance : IsTotal Concept conceptGE := ⟨fun a b => le_total b.value a.value⟩

instance : IsTrans Concept conceptGE :=
  ⟨fun _ _ _ hab hbc => le_trans hbc hab⟩

/-- `sorted(concepts, key=lambda x: x['value'], reverse=True)`: a stable sort,
descending by confidence (insertion sort is stable, like Python's sort). -/
def sortByValueDesc (l : List Concept) : List Concept :=
  List.insertionSort conceptGE l

/-- `ImageAnalysisService._create_fallback_response`: the standardized
fallback dict `{"description": None, "concepts": [], "error": msg,
"using_fallback": True}`. -/
def create_fallback_response (error_message : String) : AnalysisResult :=
  { description := none
    concepts := some []
    error := some error_message
    using_fallback := some true }

/-- `ImageAnalysisService.generate_description`: synthesize a sentence from
the top `max_concepts` concepts by confidence. The repository always calls it
with the default `max_concepts=5`. The `[]` match arm is unreachable for a
non-empty input and a positive cap (Python would raise `IndexError` there). -/
def generate_description (concepts : List Concept) (max_concepts : Nat) :
    Option String :=
  if concepts.isEmpty then none
  else
    let sorted_concepts := sortByValueDesc concepts
    let top_concepts := sorted_concepts.take max_concepts
    let concept_names := top_concepts.map (fun c => c.name)
    match concept_names with
    | [] => none
    | [c1] => some ("This image appears to be a " ++ c1 ++ ".")
    | [c1, c2] =>
        some ("This image appears to contain " ++ c1 ++ " and " ++ c2 ++ ".")
    | _ :: _ :: _ :: _ =>
        some ("This image appears to contain "
          ++ String.intercalate ", " concept_names.dropLast
          ++ ", and " ++ (concept_names.getLast?.getD "") ++ ".")

/-- The description-synthesis rule exactly as worded in spec section 4.2a,
for the refinement comparison: up to 5 top concepts by confidence, `n=0`
gives no description, `n=1` the "to be a" sentence, `n=2` the two-name
sentence, `n>=3` all but the last joined with ", " and the last joined with
", and". -/
def spec_synthesis (concepts : List Concept) : Option String :=
  let top := (sortByValueDesc concepts).take 5
  let names := top.map (fun c => c.name)
  match names with
  | [] => none
  | [c1] => some ("This image appears to be a " ++ c1 ++ ".")
  | [c1, c2] =>
      some ("This image appears to contain " ++ c1 ++ " and " ++ c2 ++ ".")
  | _ :: _ :: _ :: _ =>
      some ("This image appears to contain "
        ++ String.intercalate ", " names.dropLast
        ++ ", and " ++ (names.getLast?.getD "") ++ ".")

/-- A raw concept of the provider response (`concept.name`, `concept.value`). -/
structure RawConcept where
  name : String
  value : ℚ
deriving Repr, DecidableEq

/-- `output.data` of a workflow response output: an optional caption
(`data.text.raw`, absent when `data` has no `text` attribute) and an optional
concept list (absent when `data` has no `concepts` attribute). -/
structure OutputData where
  text : Option String
  concepts : Option (List RawConcept)
deriving Repr, DecidableEq

/-- One output of a workflow result: optional `data` attribute and optional
`model` attribute (carrying `model.id`). -/
structure WfOutput where
  data : Option OutputData
  model : Option String
deriving Repr, DecidableEq

/-- One result of a workflow response; an absent `outputs` attribute is
modelled as the empty list (the code treats the two identically). -/
structure WfResult where
  outputs : List WfOutput
deriving Repr, DecidableEq

/-- A workflow response; an absent `results` attribute is modelled as the
empty list (the code treats the two identically). -/
structure WfResponse where
  results : List WfResult
deriving Repr, DecidableEq

/-- One iteration of the `for output in result.outputs` loop of
`_analyze_with_clarifai_workflow`: a caption overwrites the current
description; concepts with confidence strictly above 0.5 are appended,
tagged with the output's model id (or "unknown"). -/
def process_output (acc : Option String × List Concept) (output : WfOutput) :
    Option String × List Concept :=
  match output.data with
  | none => acc
  | some d =>
    let description :=
      match d.text with
      | some t => some t
      | none => acc.1
    let concepts :=
      match d.concepts with
      | none => acc.2
      | some rcs =>
          acc.2 ++ (rcs.filter (fun c => mkRat 1 2 < c.value)).map
            (fun c =>
              { name := c.name, value := c.value,
                model := output.model.getD "unknown" })
    (description, concepts)

/-- The extraction phase of `_analyze_with_clarifai_workflow`: take the first
result (if any) and fold its outputs. -/
def extract_results (response : WfResponse) : Option String × List Concept :=
  match response.results with
  | [] => (none, [])
  | result :: _ =>
    if result.outputs.isEmpty then (none, [])
    else result.outputs.foldl process_output (none, [])

/-- `ImageAnalysisService._analyze_with_clarifai_workflow`. The workflow
construction plus predict call is abstracted as `predictOutcome`
(`.error e` models any exception raised inside the `try`, with `e` the
exception text); the surrounding `except` converts it to the fallback
response. On a normal response: extract caption/concepts, synthesize a
description from concepts when no truthy caption was found, sort concepts
descending by confidence, and return a dict without `error` or
`using_fallback` keys. -/
def analyze_with_clarifai_workflow (workflow_url : String)
    (predictOutcome : Except String WfResponse) : AnalysisResult :=
  match predictOutcome with
  | .error e => create_fallback_response ("Clarifai workflow error: " ++ e)
  | .ok response =>
    let extracted := extract_results response
    let description := extracted.1
    let concepts := extracted.2
    let description :=
      if !(strTruthy description) && !concepts.isEmpty then
        generate_description concepts 5
      else description
    let concepts := sortByValueDesc concepts
    { description := description
      concepts := some concepts
      error := none
      using_fallback := none }

/-- `ImageAnalysisService.analyze_image`. `is_available` and `provider` are
the instance fields set at construction; `workflow_url`/`predictOutcome` are
threaded to the workflow path. The source wraps the provider dispatch in
`try/except Exception`, and the workflow path catches its own exceptions, so
the operation is total: no exception reaches the caller, which the total
Lean return type makes structural. -/
def analyze_image (is_available : Bool) (provider : String)
    (image_bytes : Option (List Nat)) (image_url : Option String)
    (workflow_url : String) (predictOutcome : Except String WfResponse) :
    AnalysisResult :=
  if !is_available then
    create_fallback_response "Image analysis service is not available"
  else if !bytesTruthy image_bytes && !strTruthy image_url then
    create_fallback_response "Either image_bytes or image_url must be provided"
  else if provider == "clarifai" then
    analyze_with_clarifai_workflow workflow_url predictOutcome
  else
    create_fallback_response ("Unsupported provider: " ++ provider)

/-- A provider call recorded by the strategy trace: either a URL call or a
bytes call to `analysis_service.analyze_image`. -/
inductive SvcCall where
  | url (u : String)
  | bytes (b : List Nat)
deriving Repr, DecidableEq

namespace FallbackAnalysisStrategy

/-- The `except Exception as e` handler of `FallbackAnalysisStrategy.analyze`:
with bytes available, retry with bytes (returning the both-failed dict if
that call raises too); without bytes, return the URL-failure dict. `calls` is
the trace of provider calls already issued; the dict literals in this branch
carry only `using_fallback` and `error` keys. -/
def handle_url_exception (svcBytes : List Nat → Except String AnalysisResult)
    (image_bytes : Option (List Nat)) (e : String) (calls : List SvcCall) :
    Except String AnalysisResult × List SvcCall :=
  if bytesTruthy image_bytes then
    let b := image_bytes.getD []
    match svcBytes b with
    | .ok r => (.ok r, calls ++ [SvcCall.bytes b])
    | .error be =>
        (.ok { description := none, concepts := none,
               error := some ("Both URL and bytes analysis failed: "
                 ++ e ++ " / " ++ be),
               using_fallback := some true },
         calls ++ [SvcCall.bytes b])
  else
    (.ok { description := none, concepts := none,
           error := some ("URL analysis failed and no bytes provided: " ++ e),
           using_fallback := some true },
     calls)

/-- `FallbackAnalysisStrategy.analyze`. The provider is abstracted as the two
call shapes `svcUrl`/`svcBytes` (an `.error` models the call raising, with
the exception text). The second component is the trace of provider calls
issued, in order. A degraded URL result (fallback flag set or no truthy
description) triggers a bytes retry inside the same `try`, so a raise of
that retry is caught by the outer handler, which retries bytes again —
exactly as in the source. -/
def analyze (svcUrl : String → Except String AnalysisResult)
    (svcBytes : List Nat → Except String AnalysisResult)
    (image_bytes : Option (List Nat)) (image_url : Option String) :
    Except String AnalysisResult × List SvcCall :=
  if strTruthy image_url then
    let u := image_url.getD ""
    match svcUrl u with
    | .ok result =>
      if result.fallbackFlag || !strTruthy result.description then
        if bytesTruthy image_bytes then
          let b := image_bytes.getD []
          match svcBytes b with
          | .ok r2 => (.ok r2, [SvcCall.url u, SvcCall.bytes b])
          | .error e =>
              handle_url_exception svcBytes image_bytes e
                [SvcCall.url u, SvcCall.bytes b]
        else (.ok result, [SvcCall.url u])
      else (.ok result, [SvcCall.url u])
    | .error e => handle_url_exception svcBytes image_bytes e [SvcCall.url u]
  else if bytesTruthy image_bytes then
    let b := image_bytes.getD []
    (svcBytes b, [SvcCall.bytes b])
  else
    (.ok { description := none, concepts := none,
           error := some "Neither URL nor bytes provided",
           using_fallback := some true },
     [])

end FallbackAnalysisStrategy

/-- The `Image` model row as constructed by `ImageService.upload_image`
(`upload_date` is left to the database default and the primary key is
assigned at persistence time; neither is part of the constructed record
here — persisted rows pair an id with this record). -/
structure Image where
  filename : String
  original_filename : String
  s3_key : String
  file_size : Nat
  file_type : String
  ai_description : Option String
  user_id : Nat
deriving Repr, DecidableEq

/-- `ImageService.upload_image`. The S3 upload is abstracted as
`storageUpload` (`.error e` models `upload_file` raising with text `e`; the
service catches `Exception`, so the boto3 error kind is irrelevant here).
The whole presign-plus-strategy-analysis `try` region is abstracted as
`analysisStep`: `.error` models any exception inside it (caught and logged),
`.ok r` the analysis dict it produced. Returns the `(image, error)` pair
together with the list of `ImageRepository.create` calls issued. -/
def upload_image (user_id : Nat) (original_filename : String)
    (content_type : String) (s3_key : String) (file_size : Nat)
    (storageUpload : Except String String)
    (analysisStep : Except String AnalysisResult) :
    (Option Image × Option String) × List Image :=
  match storageUpload with
  | .error e => ((none, some ("Image upload failed: " ++ e)), [])
  | .ok _ =>
    let ai_description : Option String :=
      match analysisStep with
      | .error _ => none
      | .ok analysis_result =>
        if strTruthy analysis_result.description
            && !analysis_result.fallbackFlag then
          analysis_result.description
        else none
    let image : Image :=
      { filename := s3_key
        original_filename := original_filename
        s3_key := s3_key
        file_size := file_size
        file_type := content_type
        ai_description := ai_description
        user_id := user_id }
    ((some image, none), [image])

/-- `ImageRepository.get_by_id`: primary-key lookup. The database table is
modelled as an association list of (id, row). -/
def get_by_id (db : List (Nat × Image)) (image_id : Nat) : Option Image :=
  (db.find? (fun p => p.1 == image_id)).map (fun p => p.2)

/-- `ImageRepository.get_by_id_and_user`:
`Image.query.filter_by(id=image_id, user_id=user_id).first()`. -/
def get_by_id_and_user (db : List (Nat × Image)) (image_id user_id : Nat) :
    Option Image :=
  (db.find? (fun p => p.1 == image_id && p.2.user_id == user_id)).map
    (fun p => p.2)

/-- `ImageService.get_image`: delegates to the owner-scoped repository
lookup. -/
def get_image (db : List (Nat × Image)) (user_id image_id : Nat) :
    Option Image :=
  get_by_id_and_user db image_id user_id

/-- `ImageService.delete_image`. The S3 delete is abstracted as
`storageDelete` on the record's key (`.error e` models `delete_file`
raising with text `e`; the service catches `Exception`). Returns the
`(success, error)` pair, the database state afterwards, and the list of
storage delete calls issued. -/
def delete_image (storageDelete : String → Except String Unit)
    (db : List (Nat × Image)) (user_id image_id : Nat) :
    (Bool × Option String) × List (Nat × Image) × List String :=
  match get_by_id db image_id with
  | none => ((false, some "Image not found."), db, [])
  | some image =>
    if image.user_id ≠ user_id then
      ((false, some "Unauthorized to delete this image."), db, [])
    else
      match storageDelete image.s3_key with
      | .error e =>
          ((false, some ("S3 delete failed: " ++ e)), db, [image.s3_key])
      | .ok _ =>
          ((true, none), db.eraseP (fun p => p.1 == image_id),
           [image.s3_key])

/-- The failure modes of a boto3 call: a `botocore.exceptions.ClientError`,
or an exception of any other type (e.g. a parameter-validation error). -/
inductive BotoFailure where
  | clientError (msg : String)
  | nonClientError (msg : String)
deriving Repr, DecidableEq

/-- `S3Helper.get_presigned_url`. The `generate_presigned_url` call for this
key and expiry is abstracted as `callOutcome`. The source handler is
`except ClientError`: a `ClientError` is logged and converted to `None`,
while an exception of any other type propagates to the caller. -/
def get_presigned_url (key : String) (expires : Nat)
    (callOutcome : Except BotoFailure String) :
    Except BotoFailure (Option String) :=
  match callOutcome with
  | .ok u => .ok (some u)
  | .error (.clientError _) => .ok none
  | .error (.nonClientError m) => .error (.nonClientError m)

/-- Claim C1: an ImageAsset record is persisted by `upload_image` if and only
if the storage upload step succeeded. If the storage upload raises,
`upload_image` returns `(null, "Image upload failed: " ++ detail)` and the
persistence store receives zero create calls; if it succeeds, exactly one
asset is persisted and returned with a null error, regardless of the outcome
of the presign/analysis step. -/
theorem upload_image_persists_iff_storage_ok
    (user_id : Nat) (ofn ct key : String) (sz : Nat)
    (analysisStep : Except String AnalysisResult) :
    (∀ e, upload_image user_id ofn ct key sz (Except.error e) analysisStep
        = ((none, some ("Image upload failed: " ++ e)), []))
    ∧ (∀ u, ∃ img,
        upload_image user_id ofn ct key sz (Except.ok u) analysisStep
          = ((some img, none), [img])) := by
  constructor
  · intro e
    rfl
  · intro u
    exact ⟨_, rfl⟩

/-- Claim C2: when the analysis step yields an AnalysisResult, the persisted
asset's `ai_description` equals the result's description exactly when that
description is truthy (non-empty) and the fallback flag is false; in every
other case it is null. -/
theorem upload_image_ai_description
    (user_id : Nat) (ofn ct key : String) (sz : Nat) (u : String)
    (r : AnalysisResult) :
    ∃ img,
      upload_image user_id ofn ct key sz (Except.ok u) (Except.ok r)
        = ((some img, none), [img])
      ∧ (strTruthy r.description = true → r.fallbackFlag = false →
          img.ai_description = r.description)
      ∧ (strTruthy r.description = false ∨ r.fallbackFlag = true →
          img.ai_description = none) := by
  refine ⟨_, rfl, ?_, ?_⟩
  · intro h1 h2
    simp [upload_image, h1, h2]
  · intro h
    rcases h with h | h
    · simp [upload_image, h]
    · simp [upload_image, h]

/-- Witness for C2 at the spec's concrete inputs: a genuine result with
description "a cat" is persisted verbatim. -/
theorem upload_image_ai_description_witness :
    ∃ img,
      upload_image 1 "cat.png" "image/png" "1/k_cat.png" 3 (Except.ok "u")
        (Except.ok { description := some "a cat", concepts := some [],
                     error := none, using_fallback := some false })
        = ((some img, none), [img])
      ∧ img.ai_description = some "a cat" := by
  obtain ⟨img, h1, h2, h3⟩ :=
    upload_image_ai_description 1 "cat.png" "image/png" "1/k_cat.png" 3 "u"
      { description := some "a cat", concepts := some [],
        error := none, using_fallback := some false }
  exact ⟨img, h1, (h2 (by decide) (by decide)).trans rfl⟩

/-- Claim C6: `generate_description` (at the repository's cap of 5) produces
exactly the sentences of the spec's synthesis rule: null for no concepts,
"to be a" for one top concept, the two-name sentence for two, and the
Oxford-comma list for three or more, over the top-5 concepts by descending
confidence. Stated as a refinement against `spec_synthesis`, the rule as
worded in the spec. -/
theorem generate_description_matches_spec (concepts : List Concept) :
    generate_description concepts 5 = spec_synthesis concepts := by
  cases concepts with
  | nil => rfl
  | cons a l => rfl

/-- Counterexample for C9: the presign handler catches only `ClientError`,
so at a failure of any other exception type the operation propagates the
exception instead of returning null. -/
theorem get_presigned_url_nonclient_raises :
    get_presigned_url "k" 3600
        (Except.error (BotoFailure.nonClientError "Parameter validation failed"))
      = Except.error (BotoFailure.nonClientError "Parameter validation failed") :=
  rfl

/-- Claim C9 (amended): for every key and TTL, a `ClientError` failure of the
underlying presign call makes the storage adapter return null rather than
raise, and a successful call returns the URL; failures of other exception
types propagate to the caller. -/
theorem get_presigned_url_clienterror_returns_null
    (key : String) (expires : Nat) (m u : String) :
    get_presigned_url key expires (Except.error (BotoFailure.clientError m))
      = Except.ok none
    ∧ get_presigned_url key expires (Except.ok u) = Except.ok (some u) :=
  ⟨rfl, rfl⟩

/-- Claim C10: every fallback AnalysisResult built by the provider client has
a null description and an empty concepts list (so it can never supply a
non-empty description), whereas a genuine workflow answer carries no
`using_fallback` and no `error` entries at all, and reading its absent
fallback flag with the code's `.get('using_fallback', False)` yields false. -/
theorem fallback_and_genuine_result_shape (msg wu : String)
    (resp : WfResponse) :
    create_fallback_response msg
      = { description := none, concepts := some [], error := some msg,
          using_fallback := some true }
    ∧ (analyze_with_clarifai_workflow wu (Except.ok resp)).using_fallback
        = none
    ∧ (analyze_with_clarifai_workflow wu (Except.ok resp)).error = none
    ∧ (analyze_with_clarifai_workflow wu (Except.ok resp)).fallbackFlag
        = false := by
  exact ⟨rfl, rfl, rfl, rfl⟩

/-- Claim C3: when a URL is present and the provider's URL call returns
normally with a degraded result (fallback flag set, or empty/absent
description): with truthy bytes available the strategy issues a second
provider call with the bytes and returns that second result — the trace
shows exactly the URL call followed by the bytes call; without bytes it
returns the original degraded URL result after the URL call alone. -/
theorem fallback_strategy_escalation
    (svcUrl : String → Except String AnalysisResult)
    (svcBytes : List Nat → Except String AnalysisResult)
    (u : String) (r : AnalysisResult)
    (hu : strTruthy (some u) = true)
    (hr : svcUrl u = Except.ok r)
    (hdeg : (r.fallbackFlag || !strTruthy r.description) = true) :
    (∀ (b : List Nat) (r2 : AnalysisResult),
        bytesTruthy (some b) = true → svcBytes b = Except.ok r2 →
        FallbackAnalysisStrategy.analyze svcUrl svcBytes (some b) (some u)
          = (Except.ok r2, [SvcCall.url u, SvcCall.bytes b]))
    ∧ (∀ ib : Option (List Nat), bytesTruthy ib = false →
        FallbackAnalysisStrategy.analyze svcUrl svcBytes ib (some u)
          = (Except.ok r, [SvcCall.url u])) := by
  constructor
  · intro b r2 hb hr2
    unfold FallbackAnalysisStrategy.analyze
    simp only [hu, if_true, Option.getD_some, hr, hdeg, hb, hr2]
  · intro ib hb
    unfold FallbackAnalysisStrategy.analyze
    simp only [hu, if_true, Option.getD_some, hr, hdeg, hb,
      Bool.false_eq_true, if_false]

/-- Witness for C3: a concrete degraded URL result escalates to the bytes
call, whose result is returned, with the two-call trace. -/
theorem fallback_strategy_escalation_witness :
    FallbackAnalysisStrategy.analyze
      (fun _ => Except.ok { description := none, concepts := some [],
                            error := some "stale", using_fallback := some true })
      (fun _ => Except.ok { description := some "a dog", concepts := some [],
                            error := none, using_fallback := none })
      (some [1, 2]) (some "https://img")
      = (Except.ok { description := some "a dog", concepts := some [],
                     error := none, using_fallback := none },
         [SvcCall.url "https://img", SvcCall.bytes [1, 2]]) :=
  (fallback_strategy_escalation
      (fun _ => Except.ok { description := none, concepts := some [],
                            error := some "stale", using_fallback := some true })
      (fun _ => Except.ok { description := some "a dog", concepts := some [],
                            error := none, using_fallback := none })
      "https://img"
      { description := none, concepts := some [],
        error := some "stale", using_fallback := some true }
      (by decide) rfl (by decide)).1
    [1, 2]
    { description := some "a dog", concepts := some [],
      error := none, using_fallback := none }
    (by decide) rfl

/-- Claim C4: `delete_image` returns the unauthorized error before any
storage or database mutation when the asset belongs to another owner; when
the storage delete raises it returns the S3 error and the database record
still exists; the record is removed only after a successful storage delete,
returning `(true, null)`. -/
theorem delete_image_ownership_and_ordering
    (sd : String → Except String Unit) (db : List (Nat × Image))
    (uid iid : Nat) (img : Image)
    (hfind : get_by_id db iid = some img) :
    (img.user_id ≠ uid →
      delete_image sd db uid iid
        = ((false, some "Unauthorized to delete this image."), db, []))
    ∧ (∀ e, img.user_id = uid → sd img.s3_key = Except.error e →
      delete_image sd db uid iid
        = ((false, some ("S3 delete failed: " ++ e)), db, [img.s3_key])
      ∧ get_by_id (delete_image sd db uid iid).2.1 iid = some img)
    ∧ (img.user_id = uid → sd img.s3_key = Except.ok () →
      delete_image sd db uid iid
        = ((true, none), db.eraseP (fun p => p.1 == iid), [img.s3_key])) := by
  refine ⟨?_, ?_, ?_⟩
  · intro h
    simp [delete_image, hfind, h]
  · intro e h1 h2
    constructor
    · simp [delete_image, hfind, h1, h2]
    · simp [delete_image, hfind, h1, h2]
  · intro h1 h2
    simp [delete_image, hfind, h1, h2]

/-- Witness for C4: a failing storage delete leaves the record in place and
reports the S3 error. -/
theorem delete_image_ownership_and_ordering_witness :
    delete_image (fun _ => Except.error "boom")
      [(1, { filename := "k", original_filename := "f", s3_key := "k",
             file_size := 3, file_type := "image/png",
             ai_description := none, user_id := 1 })] 1 1
      = ((false, some "S3 delete failed: boom"),
         [(1, { filename := "k", original_filename := "f", s3_key := "k",
                file_size := 3, file_type := "image/png",
                ai_description := none, user_id := 1 })], ["k"]) :=
  ((delete_image_ownership_and_ordering (fun _ => Except.error "boom")
      [(1, { filename := "k", original_filename := "f", s3_key := "k",
             file_size := 3, file_type := "image/png",
             ai_description := none, user_id := 1 })] 1 1
      { filename := "k", original_filename := "f", s3_key := "k",
        file_size := 3, file_type := "image/png",
        ai_description := none, user_id := 1 }
      rfl).2.1 "boom" rfl rfl).1

/-- Finding with a conjunctive predicate equals filtering by the second
conjunct first: the step that lets two stores agreeing on the caller's own
rows give the same owner-scoped lookup result. -/
theorem find_and_eq_filter_find {α : Type} (p q : α → Bool) (l : List α) :
    l.find? (fun a => p a && q a) = (l.filter q).find? p := by
  induction l with
  | nil => rfl
  | cons a t ih =>
    by_cases hq : q a = true
    · by_cases hp : p a = true
      · simp [List.find?_cons, List.filter_cons, hp, hq]
      · simp only [Bool.not_eq_true] at hp
        simp [List.find?_cons, List.filter_cons, hp, hq, ih]
    · simp only [Bool.not_eq_true] at hq
      simp [List.find?_cons, List.filter_cons, hq, ih]

/-- Claim C5: `get_image` returns null whenever the asset does not exist or
belongs to a different owner, and the two cases are indistinguishable: two
stores that agree on the caller's own assets (differing only in assets not
owned by the caller) give the caller identical `get_image` results. -/
theorem get_image_owner_isolation (db db2 : List (Nat × Image))
    (uid iid : Nat) :
    ((∀ p ∈ db, p.1 = iid → p.2.user_id ≠ uid) →
      get_image db uid iid = none)
    ∧ (db.filter (fun p => p.2.user_id == uid)
         = db2.filter (fun p => p.2.user_id == uid) →
       get_image db uid iid = get_image db2 uid iid) := by
  constructor
  · intro h
    unfold get_image get_by_id_and_user
    rw [List.find?_eq_none.mpr]
    · rfl
    · intro x hx
      simp only [Bool.and_eq_true, beq_iff_eq, not_and]
      intro h1 h2
      exact h x hx h1 h2
  · intro hf
    unfold get_image get_by_id_and_user
    rw [find_and_eq_filter_find, find_and_eq_filter_find, hf]

/-- Witness for C5: an asset owned by user 2 is invisible to user 1, and the
store holding it is indistinguishable (for user 1) from the empty store. -/
theorem get_image_owner_isolation_witness :
    get_image [(5, { filename := "k", original_filename := "f",
                     s3_key := "k", file_size := 3, file_type := "image/png",
                     ai_description := none, user_id := 2 })] 1 5 = none
    ∧ get_image [(5, { filename := "k", original_filename := "f",
                       s3_key := "k", file_size := 3, file_type := "image/png",
                       ai_description := none, user_id := 2 })] 1 5
        = get_image [] 1 5 :=
  ⟨(get_image_owner_isolation
      [(5, { filename := "k", original_filename := "f", s3_key := "k",
             file_size := 3, file_type := "image/png",
             ai_description := none, user_id := 2 })] [] 1 5).1 (by decide),
   (get_image_owner_isolation
      [(5, { filename := "k", original_filename := "f", s3_key := "k",
             file_size := 3, file_type := "image/png",
             ai_description := none, user_id := 2 })] [] 1 5).2 (by decide)⟩

/-- Claim C8: the provider client's analyze operation is total (the Lean
return type `AnalysisResult` reflects that no exception escapes the source's
try/except structure), and whenever the service is unavailable, neither
truthy input is supplied, or the provider call raises, it returns a fallback
result with the fallback flag set and a descriptive error string. -/
theorem analyze_image_degraded_fallback
    (avail : Bool) (provider : String) (ib : Option (List Nat))
    (iu : Option String) (wu : String) (po : Except String WfResponse)
    (h : avail = false ∨ (bytesTruthy ib = false ∧ strTruthy iu = false)
        ∨ ∃ e, po = Except.error e) :
    (analyze_image avail provider ib iu wu po).using_fallback = some true
    ∧ ∃ m, (analyze_image avail provider ib iu wu po).error = some m := by
  have key : ∀ m : String,
      (create_fallback_response m).using_fallback = some true
      ∧ ∃ m2, (create_fallback_response m).error = some m2 :=
    fun m => ⟨rfl, m, rfl⟩
  rcases h with h | ⟨h1, h2⟩ | ⟨e, he⟩
  · subst h
    exact key _
  · cases avail with
    | false => exact key _
    | true =>
      have heq : analyze_image true provider ib iu wu po
          = create_fallback_response
              "Either image_bytes or image_url must be provided" := by
        simp [analyze_image, h1, h2]
      rw [heq]
      exact key _
  · subst he
    cases avail with
    | false => exact key _
    | true =>
      by_cases hin : (!bytesTruthy ib && !strTruthy iu) = true
      · have heq : analyze_image true provider ib iu wu (Except.error e)
            = create_fallback_response
                "Either image_bytes or image_url must be provided" := by
          simp [analyze_image, hin]
        rw [heq]
        exact key _
      · by_cases hp : (provider == "clarifai") = true
        · have heq : analyze_image true provider ib iu wu (Except.error e)
              = create_fallback_response ("Clarifai workflow error: " ++ e) := by
            simp [analyze_image, hin, hp, analyze_with_clarifai_workflow]
          rw [heq]
          exact key _
        · have heq : analyze_image true provider ib iu wu (Except.error e)
              = create_fallback_response ("Unsupported provider: " ++ provider) := by
            simp [analyze_image, hin, hp]
          rw [heq]
          exact key _

/-- Witness for C8: an unavailable service yields a fallback result with the
flag set and an error message present. -/
theorem analyze_image_degraded_fallback_witness :
    (analyze_image false "clarifai" none none "wu" (Except.error "down")).using_fallback
      = some true
    ∧ ∃ m, (analyze_image false "clarifai" none none "wu"
        (Except.error "down")).error = some m :=
  analyze_image_degraded_fallback false "clarifai" none none "wu"
    (Except.error "down") (Or.inl rfl)

/-- One loop step of the workflow extraction only ever appends concepts with
confidence strictly above one half. -/
theorem process_output_gt_half (acc : Option String × List Concept)
    (o : WfOutput) (h : ∀ c ∈ acc.2, mkRat 1 2 < c.value) :
    ∀ c ∈ (process_output acc o).2, mkRat 1 2 < c.value := by
  rcases o with ⟨data, mo⟩
  cases data with
  | none => exact h
  | some od =>
    rcases od with ⟨text, cs⟩
    cases cs with
    | none => exact h
    | some rcs =>
      intro d hd
      simp only [process_output, List.mem_append, List.mem_map,
        List.mem_filter, decide_eq_true_eq] at hd
      rcases hd with hd | ⟨rc, ⟨_, hval⟩, rfl⟩
      · exact h d hd
      · simpa using hval

/-- The extraction loop preserves the strict one-half lower bound on every
accumulated concept. -/
theorem foldl_process_output_gt_half (outputs : List WfOutput)
    (acc : Option String × List Concept)
    (h : ∀ c ∈ acc.2, mkRat 1 2 < c.value) :
    ∀ c ∈ (outputs.foldl process_output acc).2, mkRat 1 2 < c.value := by
  induction outputs generalizing acc with
  | nil => exact h
  | cons o t ih => exact ih (process_output acc o) (process_output_gt_half acc o h)

/-- Every concept extracted from a workflow response has confidence strictly
above one half. -/
theorem extract_results_gt_half (resp : WfResponse) :
    ∀ c ∈ (extract_results resp).2, mkRat 1 2 < c.value := by
  rcases resp with ⟨results⟩
  cases results with
  | nil =>
    intro c hc
    simp [extract_results] at hc
  | cons r t =>
    by_cases ho : r.outputs.isEmpty = true
    · intro c hc
      simp [extract_results, ho] at hc
    · have heq : extract_results ⟨r :: t⟩
          = r.outputs.foldl process_output (none, []) := by
        simp [extract_results, ho]
      rw [heq]
      exact foldl_process_output_gt_half r.outputs (none, [])
        (by intro c hc; simp at hc)

/-- Claim C7: in the result of the Clarifai workflow analysis path, every
concept — both in the synthesis input and in the returned list — has
confidence strictly greater than 0.5 (so a concept at exactly 0.5 or below
is excluded), and the returned concepts list is sorted in descending order
of confidence. -/
theorem workflow_concepts_filtered_and_sorted (wu : String)
    (resp : WfResponse) :
    (∀ c ∈ (extract_results resp).2, mkRat 1 2 < c.value)
    ∧ (∀ c ∈ ((analyze_with_clarifai_workflow wu
          (Except.ok resp)).concepts.getD []), mkRat 1 2 < c.value)
    ∧ List.Pairwise (fun a b => b.value ≤ a.value)
        ((analyze_with_clarifai_workflow wu (Except.ok resp)).concepts.getD [])
    := by
  have hc : (analyze_with_clarifai_workflow wu (Except.ok resp)).concepts
      = some (sortByValueDesc (extract_results resp).2) := rfl
  refine ⟨extract_results_gt_half resp, ?_, ?_⟩
  · rw [hc]
    intro c hcm
    simp only [Option.getD_some, sortByValueDesc] at hcm
    exact extract_results_gt_half resp c ((List.mem_insertionSort conceptGE).mp hcm)
  · rw [hc]
    simp only [Option.getD_some, sortByValueDesc]
    show List.Pairwise conceptGE _
    exact List.sorted_insertionSort conceptGE ((extract_results resp).2)

end App
